import Mathlib

/-!
Shallow embedding of the finq frontend's session-scoped orchestration layer:
the chat send handler, the upload form handler, the PPT dashboard generate /
reset handlers, the slide-configuration panel (recommendations effect and
toggling), the slide renderer, and the slide-viewer navigation.  Each
definition mirrors one JavaScript function from the repository; stateful
React components are embedded as explicit state-transition functions, and
the asynchronous boundary of a handler is split into a "start" phase (the
synchronous code before `await`) and a "complete" phase (the completion
callback), so that interleavings with other events can be expressed.
-/

/-- JavaScript `a || b` on strings, where `a` may be absent (`undefined`)
and the empty string is falsy. -/
def jsOrString (a : Option String) (b : String) : String :=
  match a with
  | some s => if s = "" then b else s
  | none => b

/-- JavaScript truthiness of an optional string (`undefined` and `""` are falsy). -/
def jsTruthyStr : Option String → Bool
  | some s => !(s == "")
  | none => false

/-- JavaScript `String.prototype.trim`: strips whitespace from both ends
(structural definition so concrete inputs evaluate). -/
def jsTrim (s : String) : String :=
  String.mk (((s.data.dropWhile Char.isWhitespace).reverse.dropWhile
    Char.isWhitespace).reverse)

/- ===================== Chat model (ChatInterface, app/rag) ===================== -/

inductive Role
  | user
  | assistant
deriving Repr, DecidableEq

/-- Metadata attached to an assistant turn; the JS object `{}` corresponds to
`ChatMetadata.empty` (reading any field of `{}` yields `undefined`, observed as
empty list / absent / false by the renderer). -/
structure ChatMetadata where
  citations : List String
  routeInfo : Option String
  grounded : Bool
  pipeline : Option String
deriving Repr, DecidableEq

def ChatMetadata.empty : ChatMetadata :=
  { citations := [], routeInfo := none, grounded := false, pipeline := none }

/-- One entry of the `messages` state of `ChatInterface`.  User messages are
created without a `metadata` field (`none`); assistant messages carry one. -/
structure Message where
  role : Role
  content : String
  metadata : Option ChatMetadata
deriving Repr, DecidableEq

/-- A history entry as projected for the request body: role and content only.
No metadata field exists in this type, mirroring
`messages.map(msg => ({ role: msg.role, content: msg.content }))`. -/
structure HistEntry where
  role : Role
  content : String
deriving Repr, DecidableEq

/-- The JSON body of `POST /api/rag/chat` built by `sendChatMessage`. -/
structure ChatRequest where
  session_id : String
  question : String
  chat_history : List HistEntry
deriving Repr, DecidableEq

/-- Fields of a successful `/chat` response; optional fields model keys the
backend may omit. -/
structure ChatSuccess where
  answer : String
  citations : Option (List String)
  routeInfo : Option String
  grounded : Option Bool
  pipeline : Option String
deriving Repr, DecidableEq

/-- Outcome of the awaited `sendChatMessage` call: backend success, backend
`success:false` (with its optional `error` string), or a thrown transport
error carrying `error.message`. -/
inductive ChatOutcome
  | success (r : ChatSuccess)
  | backendFailure (error : Option String)
  | networkFailure (message : String)
deriving Repr, DecidableEq

/-- Component state of `ChatInterface` relevant to `handleSend`. -/
structure ChatState where
  messages : List Message
  input : String
  isLoading : Bool
deriving Repr, DecidableEq

/-- The seeded greeting `ChatInterface` starts with. -/
def initialMessages : List Message :=
  [{ role := .assistant,
     content := "Hello! I can help you analyze your balance sheet. Ask me questions about your financial data.",
     metadata := some ChatMetadata.empty }]

/-- `handleSend` of `ChatInterface` (src/unnamed/part_004 lines 61-106), with
the awaited backend outcome passed explicitly.  Returns the final component
state together with the request issued (`none` when the guard returns early).
The `chat_history` is computed from the `messages` closure captured before the
optimistic user-turn append, exactly as in the source. -/
def handleSend (sessionId : String) (st : ChatState) (o : ChatOutcome) :
    ChatState × Option ChatRequest :=
  if jsTrim st.input = "" ∨ st.isLoading = true then (st, none)
  else
    let userMessage : Message := { role := .user, content := st.input, metadata := none }
    let chatHistory : List HistEntry :=
      st.messages.map (fun m => { role := m.role, content := m.content })
    let req : ChatRequest :=
      { session_id := sessionId, question := st.input, chat_history := chatHistory }
    let reply : Message :=
      match o with
      | .success r =>
          { role := .assistant, content := r.answer,
            metadata := some { citations := r.citations.getD [],
                               routeInfo := r.routeInfo,
                               grounded := r.grounded.getD false,
                               pipeline := r.pipeline } }
      | .backendFailure e =>
          { role := .assistant,
            content := "Sorry, I encountered an error: " ++ jsOrString e "Unknown error",
            metadata := some ChatMetadata.empty }
      | .networkFailure m =>
          { role := .assistant,
            content := "Sorry, I encountered an error: " ++ m,
            metadata := some ChatMetadata.empty }
    ({ messages := st.messages ++ [userMessage, reply], input := "", isLoading := false },
     some req)

/- ===================== Upload form (FileUpload, src/unnamed/part_005) ===================== -/

/-- Component state of the upload form; file slots hold the selected file's
name (`none` = empty slot). -/
structure UploadFormState where
  balanceSheet : Option String
  companyProfile : Option String
  uploading : Bool
  error : Option String
deriving Repr, DecidableEq

/-- Outcome of the awaited `uploadFiles` call. -/
inductive UploadOutcome
  | success (session_id : String)
  | backendFailure (error : Option String) (errors : Option (List String))
  | networkFailure (message : String)
deriving Repr, DecidableEq

/-- `result.error || result.errors?.join(', ') || 'Upload failed'`. -/
def uploadErrorMessage (error : Option String) (errors : Option (List String)) : String :=
  jsOrString error (jsOrString (errors.map (String.intercalate ", ")) "Upload failed")

/-- `handleUpload` of `FileUpload` (src/unnamed/part_005 lines 20-45), with the
awaited outcome passed explicitly.  Returns the final form state, the session
id after the attempt (`onUploadSuccess` sets it), and whether a network
request was issued. -/
def handleUpload (st : UploadFormState) (sessionId : Option String)
    (o : UploadOutcome) : UploadFormState × Option String × Bool :=
  match st.balanceSheet with
  | none =>
      ({ st with error := some "Please select a balance sheet file" }, sessionId, false)
  | some _ =>
    match st.companyProfile with
    | none =>
        ({ st with error := some "Please select a company profile file" }, sessionId, false)
    | some _ =>
      match o with
      | .success sid =>
          ({ st with uploading := false, error := none }, some sid, true)
      | .backendFailure e errs =>
          ({ st with uploading := false, error := some (uploadErrorMessage e errs) },
           sessionId, true)
      | .networkFailure m =>
          ({ st with uploading := false, error := some (jsOrString (some m) "Upload failed") },
           sessionId, true)

/- ===================== PPT dashboard (src/unnamed/part_002, PPTDashboard) ===================== -/

structure Metric where
  label : String
  value : String
  trend : Option String
deriving Repr, DecidableEq

structure Ratio where
  name : String
  value : String
  interpretation : String
  benchmark : Option String
deriving Repr, DecidableEq

structure BreakdownItem where
  category : String
  amount : String
  percentage : Option String
deriving Repr, DecidableEq

/-- The polymorphic content bag of one slide; every recognized field is
optional, mirroring the schema-less JSON the backend returns. -/
structure SlideContent where
  title : Option String
  subtitle : Option String
  company_name : Option String
  date : Option String
  highlights : Option (List String)
  metrics : Option (List Metric)
  ratios : Option (List Ratio)
  breakdown : Option (List BreakdownItem)
  total : Option String
  insights : Option (List String)
  recommendations : Option (List String)
  key_takeaways : Option (List String)
  summary : Option String
  insight : Option String
  next_steps : Option (List String)
deriving Repr, DecidableEq

/-- The content bag with every field absent (the JS `{}` fallback). -/
def SlideContent.empty : SlideContent :=
  { title := none, subtitle := none, company_name := none, date := none,
    highlights := none, metrics := none, ratios := none, breakdown := none,
    total := none, insights := none, recommendations := none,
    key_takeaways := none, summary := none, insight := none, next_steps := none }

/-- One generated slide: a type tag and a content bag, either possibly absent. -/
structure SlideSpec where
  type : Option String
  content : Option SlideContent
deriving Repr, DecidableEq

/-- The `metadata` object of a successful `/generate` response. -/
structure GenerationMetadata where
  slide_count : Nat
  avg_quality_score : Rat
  generation_method : Option String
  used_enhanced_context : Bool
deriving Repr, DecidableEq

/-- Outcome of the awaited `/generate` fetch. -/
inductive GenOutcome
  | success (slides : List SlideSpec) (metadata : GenerationMetadata)
  | backendFailure (error : Option String)
  | networkFailure (message : String)
deriving Repr, DecidableEq

def GenOutcome.isFailure : GenOutcome → Bool
  | .success _ _ => false
  | .backendFailure _ => true
  | .networkFailure _ => true

/-- Component state of `PPTDashboard`. -/
structure PPTState where
  sessionId : Option String
  slides : List SlideSpec
  generating : Bool
  metadata : Option GenerationMetadata
  error : Option String
  recommendations : Option (List String)
deriving Repr, DecidableEq

/-- `handleReset` of `PPTDashboard` (src/unnamed/part_002 lines 194-200). -/
def handleReset (_st : PPTState) : PPTState :=
  { sessionId := none, slides := [], generating := false,
    metadata := none, error := none, recommendations := none }

/-- The synchronous prefix of `handleGenerate` (src/unnamed/part_002 lines
161-163), run before the fetch is awaited. -/
def handleGenerateStart (st : PPTState) : PPTState :=
  { st with generating := true, error := none }

/-- The completion callback of `handleGenerate` (src/unnamed/part_002 lines
178-191): the code after `await`, applied to whatever the store's state is
when the response arrives.  Note that it consults no captured session id —
results are applied unconditionally. -/
def handleGenerateComplete (st : PPTState) (o : GenOutcome) : PPTState :=
  match o with
  | .success s md =>
      { st with slides := s, metadata := some md, generating := false }
  | .backendFailure e =>
      { st with error := some (jsOrString e "Generation failed"), generating := false }
  | .networkFailure m =>
      { st with error := some (jsOrString (some m) "Generation failed"), generating := false }

/- ===================== Configuration panel (app/frontend ppt ConfigurationPanel) ===================== -/

/-- The baseline slide selection
(src/app/frontend/src/components/ppt/SlidePreview.jsx lines 425-435,
the `ConfigurationPanel` in that file). -/
def defaultSelectedSlides : List String :=
  ["title", "executive", "vision_mission", "financials", "products_services",
   "markets_locations", "leadership", "major_projects", "conclusion"]

/-- Component state of `ConfigurationPanel`.  `prevRecommendations` is the
dependency value the recommendations `useEffect` last ran with (`none` before
the first render); React re-runs the effect only when the dependency differs
from that value.  `PPTDashboard` fetches recommendations at most once per
session and stores a single array, so comparing the dependency by value
coincides with React's reference comparison here. -/
structure PanelState where
  template : String
  theme : String
  selectedSlides : List String
  prevRecommendations : Option (Option (List String))
deriving Repr, DecidableEq

def PanelState.initial : PanelState :=
  { template := "professional", theme := "blue",
    selectedSlides := defaultSelectedSlides, prevRecommendations := none }

/-- The recommendations `useEffect` (SlidePreview.jsx lines 437-441) as run on
a render that passes prop value `recs`: skipped when the dependency is
unchanged, otherwise overwrites the selection when `recs` is a non-empty
array. -/
def runRecommendationsEffect (st : PanelState) (recs : Option (List String)) : PanelState :=
  if st.prevRecommendations = some recs then st
  else
    let st' :=
      match recs with
      | some r => if r.length > 0 then { st with selectedSlides := r } else st
      | none => st
    { st' with prevRecommendations := some recs }

/-- `handleSlideToggle` (SlidePreview.jsx lines 443-449). -/
def handleSlideToggle (st : PanelState) (slideValue : String) : PanelState :=
  { st with selectedSlides :=
      if st.selectedSlides.contains slideValue then
        st.selectedSlides.filter (fun s => s ≠ slideValue)
      else
        st.selectedSlides ++ [slideValue] }

/-- The `disabled` condition of the Generate button
(SlidePreview.jsx line 558, src/unnamed/part_002 line 104). -/
def generateButtonDisabled (generating : Bool) (selectedSlides : List String) : Bool :=
  generating || selectedSlides.length == 0

inductive BuildError
  | EmptySelection
deriving Repr, DecidableEq

structure GenerationRequest where
  slides : List String
  template : String
  theme : String
deriving Repr, DecidableEq

/-- Modelled from the spec: `ConfigurationResolver.buildRequest` is not a
named operation in the source (the panel inlines `{ template, theme, slides }`
behind the disabled-button guard); per §4.3, `buildRequest` "fails with
`EmptySelection` if the current selection is empty". -/
def buildRequest (selectedSlides : List String) (template theme : String) :
    Except BuildError GenerationRequest :=
  if selectedSlides.isEmpty then .error .EmptySelection
  else .ok { slides := selectedSlides, template := template, theme := theme }

/- ===================== Slide renderer (app/frontend ppt SlidePreview, lines 16-210) ===================== -/

/-- One rendered section of a slide body; each constructor corresponds to one
conditionally-rendered JSX block of `renderSlideContent`. -/
inductive RenderedBlock
  | titleSection (subtitle company_name date : Option String)
  | highlightsBlock (items : List String)
  | metricsBlock (items : List Metric)
  | ratiosBlock (items : List Ratio)
  | breakdownBlock (total : Option String) (items : Option (List BreakdownItem))
  | insightsBlock (items : List String)
  | recommendationsBlock (items : List String)
  | keyTakeawaysBlock (items : List String)
  | summaryBlock (text : String)
  | insightBlock (text : String)
  | nextStepsBlock (items : List String)
deriving Repr, DecidableEq

/-- A fully rendered slide: the header title plus the body sections, in
document order. -/
structure RenderedSlide where
  title : String
  blocks : List RenderedBlock
deriving Repr, DecidableEq

/-- A list-valued field renders one block when present (a present empty array
is truthy in JS and still renders its, then empty, section). -/
def optBlock {α : Type} (f : α → RenderedBlock) : Option α → List RenderedBlock
  | some a => [f a]
  | none => []

/-- A string-valued field gated by JS truthiness (absent or `""` renders
nothing). -/
def strBlock (f : String → RenderedBlock) (o : Option String) : List RenderedBlock :=
  match o with
  | some s => if s = "" then [] else [f s]
  | none => []

/-- `renderSlideContent` of the app `SlidePreview`
(src/app/frontend/src/components/ppt/SlidePreview.jsx lines 16-210), as the
total function from a slide to its rendered form.  `content` falls back to
`{}` when absent; the header title is `content.title || slide.type || 'Slide'`
(line 18); every body section is gated exactly by the JSX conditions. -/
def renderSlideContent (slide : SlideSpec) : RenderedSlide :=
  let content := slide.content.getD SlideContent.empty
  let title := jsOrString content.title (jsOrString slide.type "Slide")
  let blocks :=
    (if slide.type = some "title" then
      [RenderedBlock.titleSection content.subtitle content.company_name content.date]
     else [])
    ++ optBlock RenderedBlock.highlightsBlock content.highlights
    ++ optBlock RenderedBlock.metricsBlock content.metrics
    ++ optBlock RenderedBlock.ratiosBlock content.ratios
    ++ (if content.breakdown.isSome || jsTruthyStr content.total then
         [RenderedBlock.breakdownBlock content.total content.breakdown]
        else [])
    ++ optBlock RenderedBlock.insightsBlock content.insights
    ++ optBlock RenderedBlock.recommendationsBlock content.recommendations
    ++ optBlock RenderedBlock.keyTakeawaysBlock content.key_takeaways
    ++ strBlock RenderedBlock.summaryBlock content.summary
    ++ strBlock RenderedBlock.insightBlock content.insight
    ++ optBlock RenderedBlock.nextStepsBlock content.next_steps
  { title := title, blocks := blocks }

/- ===================== Slide viewer navigation (app/frontend ppt SlidePreview, lines 226-257) ===================== -/

/-- A navigation action of the slide viewer: the Previous button, the Next
button, or one of the indicator dots (dots are rendered by `slides.map`, one
per index below `slides.length`). -/
inductive NavAction
  | previous
  | next
  | dot (j : Nat)
deriving Repr, DecidableEq

/-- One navigation step on the current-slide index.  A disabled button
(`disabled={currentSlideIndex === 0}` / `=== slides.length - 1`) leaves the
index unchanged; an enabled click runs `Math.max(0, i - 1)` resp.
`Math.min(slides.length - 1, i + 1)`; a dot sets the index directly. -/
def navStep (len : Nat) (i : Nat) : NavAction → Nat
  | .previous => if i = 0 then i else Nat.max 0 (i - 1)
  | .next => if i = len - 1 then i else Nat.min (len - 1) (i + 1)
  | .dot j => j

/- ===================== Sample data for concrete instances ===================== -/

/-- A concrete slide as the mocked `/generate` success of spec Scenario B. -/
def sampleSlide : SlideSpec :=
  { type := some "title",
    content := some { SlideContent.empty with title := some "Acme Corp" } }

/-- Concrete generation metadata matching spec Scenario B. -/
def sampleMetadata : GenerationMetadata :=
  { slide_count := 1, avg_quality_score := (185 : Rat) / 2,
    generation_method := some "agentic", used_enhanced_context := false }

/-- A concrete `PPTDashboard` state holding a previously generated deck. -/
def sampleDeckState : PPTState :=
  { sessionId := some "s1", slides := [sampleSlide], generating := false,
    metadata := some sampleMetadata, error := none, recommendations := none }

/- ===================== Helper lemmas ===================== -/

theorem jsOrString_ne_empty (a : Option String) (b : String) (hb : b ≠ "") :
    jsOrString a b ≠ "" := by
  cases a with
  | none => simpa [jsOrString] using hb
  | some s => by_cases h : s = "" <;> simp [jsOrString, h, hb]

theorem mem_optBlock {α : Type} (f : α → RenderedBlock) (o : Option α) (b : RenderedBlock) :
    b ∈ optBlock f o ↔ ∃ a, o = some a ∧ b = f a := by
  cases o <;> simp [optBlock]

theorem mem_strBlock (f : String → RenderedBlock) (o : Option String) (b : RenderedBlock) :
    b ∈ strBlock f o ↔ ∃ s, o = some s ∧ ¬ s = "" ∧ b = f s := by
  cases o with
  | none => simp [strBlock]
  | some s => by_cases h : s = "" <;> simp [strBlock, h]

theorem mem_ite_singleton {c : Prop} [Decidable c] (x b : RenderedBlock) :
    b ∈ (if c then [x] else ([] : List RenderedBlock)) ↔ c ∧ b = x := by
  split <;> simp_all

theorem runRecommendationsEffect_prev (st : PanelState) (recs : Option (List String)) :
    (runRecommendationsEffect st recs).prevRecommendations = some recs := by
  unfold runRecommendationsEffect
  split
  · next h => exact h
  · rfl

theorem runRecommendationsEffect_skip (st : PanelState) (recs : Option (List String))
    (h : st.prevRecommendations = some recs) :
    runRecommendationsEffect st recs = st := by
  unfold runRecommendationsEffect
  rw [if_pos h]

theorem handleSlideToggle_prev (st : PanelState) (v : String) :
    (handleSlideToggle st v).prevRecommendations = st.prevRecommendations := rfl

theorem foldl_toggle_prev (ts : List String) (st : PanelState) :
    (ts.foldl handleSlideToggle st).prevRecommendations = st.prevRecommendations := by
  induction ts generalizing st with
  | nil => rfl
  | cons t ts ih => rw [List.foldl_cons, ih, handleSlideToggle_prev]

theorem navStep_lt (len : Nat) (i : Nat) (hi : i < len) :
    ∀ a : NavAction, (∀ j, a = .dot j → j < len) → navStep len i a < len := by
  intro a ha
  cases a with
  | previous =>
      by_cases h0 : i = 0
      · simpa [navStep, h0] using hi
      · simp only [navStep, if_neg h0, Nat.zero_max]
        omega
  | next =>
      by_cases hl : i = len - 1
      · simpa [navStep, hl] using hi
      · simp only [navStep, if_neg hl]
        exact Nat.lt_of_le_of_lt (Nat.min_le_left _ _) (by omega)
  | dot j => simpa [navStep] using ha j rfl

theorem navFold_lt (len : Nat) (acts : List NavAction)
    (hacts : ∀ a ∈ acts, ∀ j, a = .dot j → j < len) (i : Nat) (hi : i < len) :
    acts.foldl (navStep len) i < len := by
  induction acts generalizing i with
  | nil => simpa using hi
  | cons a acts ih =>
      rw [List.foldl_cons]
      exact ih (fun b hb => hacts b (List.mem_cons_of_mem _ hb)) _
        (navStep_lt len i hi a (hacts a (List.mem_cons_self _ _)))

/- ===================== Claim theorems ===================== -/

/-- C6: for every upload attempt in which the required (balance sheet) slot is
empty, `handleUpload` sets the missing-required-document validation error,
issues no network request, and leaves the session id and the rest of the form
state unchanged, whatever backend outcome would have resulted. -/
theorem upload_missing_required_no_network (st : UploadFormState)
    (sessionId : Option String) (o : UploadOutcome) (h : st.balanceSheet = none) :
    handleUpload st sessionId o
      = ({ st with error := some "Please select a balance sheet file" }, sessionId, false) := by
  unfold handleUpload
  rw [h]

theorem upload_missing_required_no_network_witness :
    handleUpload
        { balanceSheet := none, companyProfile := some "profile.txt",
          uploading := false, error := none }
        none (.success "s1")
      = ({ balanceSheet := none, companyProfile := some "profile.txt",
           uploading := false, error := some "Please select a balance sheet file" },
         none, false) :=
  upload_missing_required_no_network _ _ _ rfl

/-- C8: when the slide selection is empty, the Generate button is disabled for
every value of the `generating` flag, and `buildRequest` (modelled from the
spec) fails with `EmptySelection` for every template and theme, so no
generation request with an empty slide list can be issued. -/
theorem empty_selection_blocks_generation :
    (∀ generating : Bool, generateButtonDisabled generating [] = true)
    ∧ (∀ template theme : String, buildRequest [] template theme = .error .EmptySelection) := by
  constructor
  · intro g
    cases g <;> rfl
  · intro t th
    rfl

/-- C7: a `handleGenerate` call that ends in backend-reported or transport
failure leaves the previously held slide list, generation metadata, session id
and recommendations exactly as they were before the call; only the error
message is set (and the transient `generating` flag ends false). -/
theorem generate_failure_preserves_deck (st : PPTState) (o : GenOutcome)
    (h : o.isFailure = true) :
    (handleGenerateComplete (handleGenerateStart st) o).slides = st.slides
    ∧ (handleGenerateComplete (handleGenerateStart st) o).metadata = st.metadata
    ∧ (handleGenerateComplete (handleGenerateStart st) o).sessionId = st.sessionId
    ∧ (handleGenerateComplete (handleGenerateStart st) o).recommendations = st.recommendations
    ∧ (handleGenerateComplete (handleGenerateStart st) o).generating = false
    ∧ ∃ m, (handleGenerateComplete (handleGenerateStart st) o).error = some m := by
  cases o with
  | success s md => simp [GenOutcome.isFailure] at h
  | backendFailure e =>
      exact ⟨rfl, rfl, rfl, rfl, rfl, _, rfl⟩
  | networkFailure m =>
      exact ⟨rfl, rfl, rfl, rfl, rfl, _, rfl⟩

theorem generate_failure_preserves_deck_witness :
    (handleGenerateComplete (handleGenerateStart sampleDeckState)
        (.backendFailure (some "boom"))).slides = sampleDeckState.slides
    ∧ (handleGenerateComplete (handleGenerateStart sampleDeckState)
        (.backendFailure (some "boom"))).metadata = sampleDeckState.metadata
    ∧ (handleGenerateComplete (handleGenerateStart sampleDeckState)
        (.backendFailure (some "boom"))).sessionId = sampleDeckState.sessionId
    ∧ (handleGenerateComplete (handleGenerateStart sampleDeckState)
        (.backendFailure (some "boom"))).recommendations = sampleDeckState.recommendations
    ∧ (handleGenerateComplete (handleGenerateStart sampleDeckState)
        (.backendFailure (some "boom"))).generating = false
    ∧ ∃ m, (handleGenerateComplete (handleGenerateStart sampleDeckState)
        (.backendFailure (some "boom"))).error = some m :=
  generate_failure_preserves_deck sampleDeckState (.backendFailure (some "boom")) rfl

/-- C1: the claim fails on the code.  The completion handler of
`handleGenerate` consults no captured session id: when a generate started for
session "s1" completes after the user has invoked `handleReset` (so the
store's current session id is `none` and no longer equals the captured one),
the stale result IS applied — the post-reset state's slide list and metadata
are overwritten by the stale completion. -/
theorem stale_generate_completion_mutates_state :
    (handleGenerateComplete
        (handleReset (handleGenerateStart
          { sessionId := some "s1", slides := [], generating := false,
            metadata := none, error := none, recommendations := none }))
        (.success [sampleSlide] sampleMetadata)).sessionId = none
    ∧ (handleGenerateComplete
        (handleReset (handleGenerateStart
          { sessionId := some "s1", slides := [], generating := false,
            metadata := none, error := none, recommendations := none }))
        (.success [sampleSlide] sampleMetadata)).slides = [sampleSlide]
    ∧ (handleGenerateComplete
        (handleReset (handleGenerateStart
          { sessionId := some "s1", slides := [], generating := false,
            metadata := none, error := none, recommendations := none }))
        (.success [sampleSlide] sampleMetadata)).metadata = some sampleMetadata :=
  ⟨rfl, rfl, rfl⟩

/-- C2: once a non-empty recommendation set has been applied, any sequence of
user toggles is never overwritten by the same recommendation set arriving
again: the recommendations effect run on a later render with the unchanged
dependency is the identity, so the user's edited selection (indeed the whole
panel state) is unchanged. -/
theorem applyRecommendations_second_call_preserves_edits
    (st : PanelState) (r : List String) (_hr : r ≠ []) (ts : List String) :
    runRecommendationsEffect
        (ts.foldl handleSlideToggle (runRecommendationsEffect st (some r))) (some r)
      = ts.foldl handleSlideToggle (runRecommendationsEffect st (some r)) := by
  have hprev :
      (ts.foldl handleSlideToggle (runRecommendationsEffect st (some r))).prevRecommendations
        = some (some r) := by
    rw [foldl_toggle_prev, runRecommendationsEffect_prev]
  exact runRecommendationsEffect_skip _ _ hprev

theorem applyRecommendations_second_call_preserves_edits_witness :
    runRecommendationsEffect
        (["executive"].foldl handleSlideToggle
          (runRecommendationsEffect PanelState.initial (some ["title", "ratios"]))) (some ["title", "ratios"])
      = ["executive"].foldl handleSlideToggle
          (runRecommendationsEffect PanelState.initial (some ["title", "ratios"])) :=
  applyRecommendations_second_call_preserves_edits PanelState.initial
    ["title", "ratios"] (by simp) ["executive"]

/-- C10: for a fixed non-empty slide list, the viewer's current-slide index
starts at 0 and stays within `[0, slides.length - 1]` under any sequence of
Previous / Next / indicator-dot actions (dots exist only for in-range
indices), so the rendered-slide lookup is always in bounds; moreover Previous
is a no-op at index 0 and Next a no-op at the last index. -/
theorem slide_viewer_index_in_bounds (slides : List SlideSpec) (hne : slides ≠ [])
    (acts : List NavAction)
    (hacts : ∀ a ∈ acts, ∀ j, a = .dot j → j < slides.length) :
    acts.foldl (navStep slides.length) 0 < slides.length
    ∧ navStep slides.length 0 .previous = 0
    ∧ navStep slides.length (slides.length - 1) .next = slides.length - 1 := by
  have hlen : 0 < slides.length := List.length_pos.mpr hne
  refine ⟨navFold_lt _ acts hacts 0 hlen, rfl, ?_⟩
  simp [navStep]

theorem slide_viewer_index_in_bounds_witness :
    [NavAction.next, NavAction.dot 0, NavAction.previous].foldl
        (navStep [sampleSlide].length) 0 < [sampleSlide].length
    ∧ navStep [sampleSlide].length 0 .previous = 0
    ∧ navStep [sampleSlide].length ([sampleSlide].length - 1) .next
        = [sampleSlide].length - 1 :=
  slide_viewer_index_in_bounds [sampleSlide] (by simp)
    [NavAction.next, NavAction.dot 0, NavAction.previous]
    (by rintro a ha j rfl; simp at ha; subst ha; simp)

/-- C3: for every completed send call (non-blank input, no send already in
flight), `handleSend` appends exactly one user turn and exactly one assistant
turn to the history, in that order — user first, then assistant — whatever
the backend outcome (success, backend-reported failure, or transport
failure). -/
theorem send_appends_user_then_assistant (sessionId : String) (st : ChatState)
    (o : ChatOutcome) (hin : ¬ jsTrim st.input = "") (hload : st.isLoading = false) :
    ∃ a : Message, a.role = .assistant ∧
      (handleSend sessionId st o).1.messages
        = st.messages ++ [{ role := .user, content := st.input, metadata := none }, a] := by
  have hguard : ¬ (jsTrim st.input = "" ∨ st.isLoading = true) := by
    simp [hin, hload]
  unfold handleSend
  rw [if_neg hguard]
  cases o with
  | success r => exact ⟨_, rfl, rfl⟩
  | backendFailure e => exact ⟨_, rfl, rfl⟩
  | networkFailure m => exact ⟨_, rfl, rfl⟩

theorem send_appends_user_then_assistant_witness :
    ∃ a : Message, a.role = .assistant ∧
      (handleSend "s1"
          { messages := initialMessages, input := "What is working capital?", isLoading := false }
          (.success { answer := "See assets.", citations := none, routeInfo := none,
                      grounded := none, pipeline := none })).1.messages
        = initialMessages
          ++ [{ role := .user, content := "What is working capital?", metadata := none }, a] :=
  send_appends_user_then_assistant "s1"
    { messages := initialMessages, input := "What is working capital?", isLoading := false }
    (.success { answer := "See assets.", citations := none, routeInfo := none,
                grounded := none, pipeline := none })
    (by decide) rfl

/-- C4: for every completed send whose outcome is a backend-reported failure
or a transport failure, the appended assistant turn's content is the error
summary containing the backend's error string (or the generic "Unknown error"
when the backend sent none), its metadata is empty, and the history keeps its
turn-by-turn ordering: old turns, then the user turn, then the error turn. -/
theorem send_failure_appends_error_turn (sessionId : String) (st : ChatState)
    (hin : ¬ jsTrim st.input = "") (hload : st.isLoading = false) :
    (∀ e : String, ¬ e = "" →
      (handleSend sessionId st (.backendFailure (some e))).1.messages
        = st.messages
          ++ [{ role := .user, content := st.input, metadata := none },
              { role := .assistant, content := "Sorry, I encountered an error: " ++ e,
                metadata := some ChatMetadata.empty }]
      ∧ ∃ pre post : String, "Sorry, I encountered an error: " ++ e = pre ++ e ++ post)
    ∧ ((handleSend sessionId st (.backendFailure none)).1.messages
        = st.messages
          ++ [{ role := .user, content := st.input, metadata := none },
              { role := .assistant,
                content := "Sorry, I encountered an error: " ++ "Unknown error",
                metadata := some ChatMetadata.empty }])
    ∧ (∀ m : String,
      (handleSend sessionId st (.networkFailure m)).1.messages
        = st.messages
          ++ [{ role := .user, content := st.input, metadata := none },
              { role := .assistant, content := "Sorry, I encountered an error: " ++ m,
                metadata := some ChatMetadata.empty }]) := by
  have hguard : ¬ (jsTrim st.input = "" ∨ st.isLoading = true) := by
    simp [hin, hload]
  refine ⟨fun e he => ⟨?_, "Sorry, I encountered an error: ", "", by simp⟩, ?_, fun m => ?_⟩
  · unfold handleSend
    rw [if_neg hguard]
    simp [jsOrString, he]
  · unfold handleSend
    rw [if_neg hguard]
    rfl
  · unfold handleSend
    rw [if_neg hguard]

theorem send_failure_appends_error_turn_witness :
    (handleSend "s1"
        { messages := initialMessages, input := "What is total equity?", isLoading := false }
        (.backendFailure (some "timeout"))).1.messages
      = initialMessages
        ++ [{ role := .user, content := "What is total equity?", metadata := none },
            { role := .assistant, content := "Sorry, I encountered an error: " ++ "timeout",
              metadata := some ChatMetadata.empty }]
    ∧ ∃ pre post : String,
        "Sorry, I encountered an error: " ++ "timeout" = pre ++ "timeout" ++ post :=
  (send_failure_appends_error_turn "s1"
    { messages := initialMessages, input := "What is total equity?", isLoading := false }
    (by decide) rfl).1 "timeout" (by decide)

/-- C5: every completed send issues exactly one request, carrying the question
and the full prior turn sequence — every turn appended before this call,
the seeded greeting included — with each history entry projected to role and
content only (the `HistEntry` type has no metadata field, so citations,
grounding, pipeline and routeInfo cannot appear in the payload). -/
theorem send_request_carries_full_history (sessionId : String) (st : ChatState)
    (o : ChatOutcome) (hin : ¬ jsTrim st.input = "") (hload : st.isLoading = false) :
    (handleSend sessionId st o).2
      = some { session_id := sessionId, question := st.input,
               chat_history :=
                 st.messages.map (fun m => { role := m.role, content := m.content }) } := by
  have hguard : ¬ (jsTrim st.input = "" ∨ st.isLoading = true) := by
    simp [hin, hload]
  unfold handleSend
  rw [if_neg hguard]

theorem send_request_carries_full_history_witness :
    (handleSend "s1"
        { messages := initialMessages, input := "List the liabilities.", isLoading := false }
        (.networkFailure "Network Error")).2
      = some { session_id := "s1", question := "List the liabilities.",
               chat_history :=
                 initialMessages.map (fun m => { role := m.role, content := m.content }) } :=
  send_request_carries_full_history "s1"
    { messages := initialMessages, input := "List the liabilities.", isLoading := false }
    (.networkFailure "Network Error") (by decide) rfl

/-- C9: the slide renderer is a total function on `SlideSpec` — any subset of
the recognized optional fields, including an entirely absent content object,
produces a rendering.  The header title falls back to the slide type and then
to the default "Slide" (and is never blank), and each recognized field is
rendered independently: its section appears in the rendered blocks exactly
when the field is present (for string-valued sections, present and non-empty,
matching JS truthiness), regardless of every other field. -/
theorem renderSlideContent_total_independent (slide : SlideSpec) :
    (renderSlideContent slide).title ≠ ""
    ∧ ((slide.content.getD SlideContent.empty).title = none →
        (renderSlideContent slide).title = jsOrString slide.type "Slide")
    ∧ ((slide.content.getD SlideContent.empty).title = none → slide.type = none →
        (renderSlideContent slide).title = "Slide")
    ∧ (∀ l, RenderedBlock.highlightsBlock l ∈ (renderSlideContent slide).blocks
        ↔ (slide.content.getD SlideContent.empty).highlights = some l)
    ∧ (∀ l, RenderedBlock.metricsBlock l ∈ (renderSlideContent slide).blocks
        ↔ (slide.content.getD SlideContent.empty).metrics = some l)
    ∧ (∀ l, RenderedBlock.ratiosBlock l ∈ (renderSlideContent slide).blocks
        ↔ (slide.content.getD SlideContent.empty).ratios = some l)
    ∧ (∀ l, RenderedBlock.insightsBlock l ∈ (renderSlideContent slide).blocks
        ↔ (slide.content.getD SlideContent.empty).insights = some l)
    ∧ (∀ l, RenderedBlock.recommendationsBlock l ∈ (renderSlideContent slide).blocks
        ↔ (slide.content.getD SlideContent.empty).recommendations = some l)
    ∧ (∀ l, RenderedBlock.keyTakeawaysBlock l ∈ (renderSlideContent slide).blocks
        ↔ (slide.content.getD SlideContent.empty).key_takeaways = some l)
    ∧ (∀ l, RenderedBlock.nextStepsBlock l ∈ (renderSlideContent slide).blocks
        ↔ (slide.content.getD SlideContent.empty).next_steps = some l)
    ∧ (∀ s, RenderedBlock.summaryBlock s ∈ (renderSlideContent slide).blocks
        ↔ ((slide.content.getD SlideContent.empty).summary = some s ∧ ¬ s = ""))
    ∧ (∀ s, RenderedBlock.insightBlock s ∈ (renderSlideContent slide).blocks
        ↔ ((slide.content.getD SlideContent.empty).insight = some s ∧ ¬ s = ""))
    ∧ (∀ a b c, RenderedBlock.titleSection a b c ∈ (renderSlideContent slide).blocks
        ↔ (slide.type = some "title"
           ∧ a = (slide.content.getD SlideContent.empty).subtitle
           ∧ b = (slide.content.getD SlideContent.empty).company_name
           ∧ c = (slide.content.getD SlideContent.empty).date))
    ∧ ((∃ t items, RenderedBlock.breakdownBlock t items ∈ (renderSlideContent slide).blocks)
        ↔ ((slide.content.getD SlideContent.empty).breakdown.isSome
            || jsTruthyStr (slide.content.getD SlideContent.empty).total) = true) := by
  refine ⟨?_, ?_, ?_, ?_, ?_, ?_, ?_, ?_, ?_, ?_, ?_, ?_, ?_, ?_⟩
  · exact jsOrString_ne_empty _ _ (jsOrString_ne_empty _ _ (by decide))
  · intro h
    simp [renderSlideContent, jsOrString, h]
  · intro h ht
    simp [renderSlideContent, jsOrString, h, ht]
  all_goals
    simp only [renderSlideContent, List.mem_append, mem_optBlock, mem_strBlock,
      mem_ite_singleton]
    intros
    constructor
    · rintro (⟨h1, h2⟩ | ⟨a, ha, hb⟩ | ⟨a, ha, hb⟩ | ⟨a, ha, hb⟩ | ⟨h1, h2⟩ | ⟨a, ha, hb⟩
        | ⟨a, ha, hb⟩ | ⟨a, ha, hb⟩ | ⟨a, ha, hc, hb⟩ | ⟨a, ha, hc, hb⟩ | ⟨a, ha, hb⟩) <;>
      simp_all
    · intro h
      simp_all

theorem renderSlideContent_total_independent_witness :
    (renderSlideContent
        { type := none,
          content := some { SlideContent.empty with
                            highlights := some ["Revenue up 12%"],
                            summary := some "Solid year" } }).title = "Slide"
    ∧ RenderedBlock.highlightsBlock ["Revenue up 12%"]
        ∈ (renderSlideContent
            { type := none,
              content := some { SlideContent.empty with
                                highlights := some ["Revenue up 12%"],
                                summary := some "Solid year" } }).blocks
    ∧ RenderedBlock.summaryBlock "Solid year"
        ∈ (renderSlideContent
            { type := none,
              content := some { SlideContent.empty with
                                highlights := some ["Revenue up 12%"],
                                summary := some "Solid year" } }).blocks :=
  ⟨(renderSlideContent_total_independent _).2.2.1 rfl rfl,
   ((renderSlideContent_total_independent _).2.2.2.1 _).mpr rfl,
   ((renderSlideContent_total_independent _).2.2.2.2.2.2.2.2.2.2.1 _).mpr
     ⟨rfl, by decide⟩⟩
